import Mathlib

/-!
Shallow embedding of the sales-store-frontend session/authorization guard,
request/error normalizer and proxy gateway, with proofs of the spec claims.

JavaScript values that the embedded code inspects dynamically are modelled by
`JVal`; JS truthiness of strings and of `JVal`s is modelled explicitly, since
the source branches on it (`if (token)`, `if (error.message)`, `data.serverOffline`).
Bodies of HTTP responses are modelled by their parse outcome (`Option JVal`,
`none` = not valid JSON), and reading a body is modelled as a pure function of
the response.
-/

namespace SalesStore

/-- A JavaScript/JSON value, as far as the embedded code inspects one. -/
inductive JVal where
  | jNull : JVal
  | jBool : Bool → JVal
  | jNum : Int → JVal
  | jStr : String → JVal
  | jObj : List (String × JVal) → JVal
  deriving Repr

/-- JS truthiness of a `JVal`. -/
def JVal.truthy : JVal → Bool
  | .jNull => false
  | .jBool b => b
  | .jNum n => n != 0
  | .jStr s => s != ""
  | .jObj _ => true

/-- Property access `v.f`: `some` when the field is present, `none` = `undefined`. -/
def JVal.field : JVal → String → Option JVal
  | .jObj fs, f => fs.lookup f
  | _, _ => none

/-- Truthiness of a possibly-`undefined` value (`undefined` is falsy). -/
def jsTruthyOpt : Option JVal → Bool
  | none => false
  | some v => v.truthy

/-- JS string truthiness of a nullable string (`null` and `""` are falsy). -/
def strTruthy : Option String → Bool
  | none => false
  | some s => s != ""

/-- JS `String.prototype.toLowerCase` (ASCII, which covers every role string
the code compares). -/
def toLowerCase (s : String) : String := ⟨s.data.map Char.toLower⟩

/-- JS `String(v)` / `v.toString()` coercion, as far as the embedded code uses it. -/
def JVal.jsToString : JVal → String
  | .jNull => "null"
  | .jBool b => if b then "true" else "false"
  | .jNum n => toString n
  | .jStr s => s
  | .jObj _ => "[object Object]"

/-- `JSON.stringify` string escaping, limited to quote and backslash, which
covers every value the development evaluates. -/
def jsonEscapeChar (c : Char) : List Char :=
  if c = '"' then ['\\', '"'] else if c = '\\' then ['\\', '\\'] else [c]

def jsonEscape (s : String) : String :=
  ⟨(s.data.map jsonEscapeChar).flatten⟩

mutual
def JVal.stringify : JVal → String
  | .jNull => "null"
  | .jBool b => if b then "true" else "false"
  | .jNum n => toString n
  | .jStr s => "\x22" ++ jsonEscape s ++ "\x22"
  | .jObj fs => "\x7b" ++ stringifyFields fs ++ "\x7d"

def stringifyFields : List (String × JVal) → String
  | [] => ""
  | [(k, v)] => "\x22" ++ jsonEscape k ++ "\x22:" ++ v.stringify
  | (k, v) :: rest =>
      "\x22" ++ jsonEscape k ++ "\x22:" ++ v.stringify ++ "," ++ stringifyFields rest
end

/-- JS `String.prototype.includes` (substring containment). -/
def jsIncludes (s sub : String) : Bool :=
  (List.range (s.length + 1)).any fun i => sub.toList.isPrefixOf (s.toList.drop i)

/-! ### localStorage and the APIClient (src/js/utils/api.js)

The browser's persistent token store is the single `'jwtToken'` cell of
localStorage, modelled as `Option String` (`none` = key absent). -/

/-- State of the `APIClient` singleton together with the persisted store:
`token` is the instance field `this.token`, `store` is `localStorage['jwtToken']`. -/
structure APIClient where
  token : Option String
  store : Option String
  deriving Repr, DecidableEq

/-- `new APIClient()`: `this.token = localStorage.getItem('jwtToken')`. -/
def APIClient.new (store : Option String) : APIClient :=
  { token := store, store := store }

/-- `APIClient.setToken`: sets `this.token`; persists via `setItem` when the
value is truthy, otherwise `removeItem` (api.js lines 108–115). -/
def APIClient.setToken (_c : APIClient) (t : Option String) : APIClient :=
  { token := t, store := if strTruthy t then t else none }

/-- The Authorization header value attached by `makeRequest`
(api.js line 24): `this.token ? `Bearer ${this.token}` : ''`. -/
def APIClient.authHeader (c : APIClient) : String :=
  if strTruthy c.token then "Bearer " ++ c.token.getD "" else ""

/-! ### JWTHelper (unnamed part: JWT utility functions) -/

/-- `JWTHelper.getToken()`: `localStorage.getItem('jwtToken')`. -/
def JWTHelper.getToken (store : Option String) : Option String :=
  store

/-- `JWTHelper.setToken(token)`: `localStorage.setItem('jwtToken', token)` —
writes the persisted store directly, bypassing any `APIClient` instance. -/
def JWTHelper.setTokenStore (c : APIClient) (t : String) : APIClient :=
  { c with store := some t }

/-- `JWTHelper.isAuthenticated()`: `!!this.getToken()`. -/
def JWTHelper.isAuthenticated (store : Option String) : Bool :=
  strTruthy (JWTHelper.getToken store)

/-- The payload `parseJwt` extracts from a token; `exp` is the numeric expiry
claim (`none` = claim absent). -/
structure JwtPayload where
  exp : Option Nat
  deriving Repr, DecidableEq

/-- JS truthiness of a possibly-absent number (`undefined` and `0` are falsy). -/
def natTruthy : Option Nat → Bool
  | none => false
  | some n => n != 0

/-- The base64url/JSON decoding inside `JWTHelper.parseJwt` is an environment
fact about token strings; the development quantifies over it as
`parse : String → Option JwtPayload`, `none` being `parseJwt`'s catch-all
`return null` for unparsable tokens. -/
abbrev JwtParse := String → Option JwtPayload

/-- The token `isTokenExpired` actually inspects:
`token || this.getToken()` (a falsy argument defaults to the stored token). -/
def JWTHelper.effectiveToken (tokenArg store : Option String) : Option String :=
  if strTruthy tokenArg then tokenArg else JWTHelper.getToken store

/-- `JWTHelper.isTokenExpired(token = null)`: treats an absent/unparsable
token or falsy `exp` as expired, otherwise tests `payload.exp < currentTime`. -/
def JWTHelper.isTokenExpired (parse : JwtParse) (tokenArg : Option String)
    (store : Option String) (now : Nat) : Bool :=
  let jwtToken := JWTHelper.effectiveToken tokenArg store
  if !strTruthy jwtToken then true
  else
    match parse (jwtToken.getD "") with
    | none => true
    | some payload =>
      if !natTruthy payload.exp then true
      else decide (payload.exp.getD 0 < now)

/-! ### AuthService (unnamed part: authentication module) -/

/-- The identity `/api/auth/me` resolves to: `role` is the user's role string
(`none` = field absent). -/
structure UserData where
  username : Option String
  role : Option String
  deriving Repr, DecidableEq

/-- `AuthService.isAuthenticated()`:
`JWTHelper.isAuthenticated() && !JWTHelper.isTokenExpired()`. -/
def AuthService.isAuthenticated (parse : JwtParse) (store : Option String)
    (now : Nat) : Bool :=
  JWTHelper.isAuthenticated store && !JWTHelper.isTokenExpired parse none store now

/-- `AuthService.getCurrentUser()`: awaits `/api/auth/me`; any error is caught
and becomes `null`. `fetchMe` is the outcome of that round trip. -/
def AuthService.getCurrentUser (fetchMe : Except String (Option UserData)) :
    Option UserData :=
  match fetchMe with
  | .error _ => none
  | .ok u => u

/-- The role comparison inside `AuthService.hasRole` (lines 105–109):
lowercase both sides; `admin` as target also accepts `administrator`. -/
def AuthService.roleMatches (userRole targetRole : String) : Bool :=
  let u := toLowerCase userRole
  let t := toLowerCase targetRole
  u == t || (t == "admin" && (u == "admin" || u == "administrator"))

/-- `AuthService.hasRole(role)`: denies unless authenticated, identity resolved,
role field truthy and the comparison succeeds; all errors caught to `false`. -/
def AuthService.hasRole (role : String) (parse : JwtParse) (store : Option String)
    (now : Nat) (fetchMe : Except String (Option UserData)) : Bool :=
  if !AuthService.isAuthenticated parse store now then false
  else
    match AuthService.getCurrentUser fetchMe with
    | none => false
    | some userData =>
      if !strTruthy userData.role then false
      else AuthService.roleMatches (userData.role.getD "") role

/-- `AuthService.isAdmin(userData)` (lines 83–87). -/
def AuthService.isAdmin (userData : Option UserData) : Bool :=
  match userData with
  | none => false
  | some u =>
    if !strTruthy u.role then false
    else
      let role := toLowerCase (u.role.getD "")
      role == "admin" || role == "administrator"

/-! ### AdminGuard (src/js/auth/admin-guard.js) -/

/-- The observable DOM side effects of `AdminGuard.init`, in order. -/
inductive GuardAction where
  | hideContent : GuardAction
  | showContent : GuardAction
  | redirect : String → GuardAction
  deriving Repr, DecidableEq

/-- `AdminGuard.init()`: hides content first, then checks authentication and
the `'ADMIN'` role; denial redirects (to `/login` resp. `/access-denied`) and
returns `false`; only full success reveals content. Errors thrown during
identity resolution are caught inside `hasRole`/`getCurrentUser` and become
denial, matching the guard's own catch-all redirect to `/access-denied`. -/
def AdminGuard.init (parse : JwtParse) (store : Option String) (now : Nat)
    (fetchMe : Except String (Option UserData)) : Bool × List GuardAction :=
  let acts := [GuardAction.hideContent]
  if !AuthService.isAuthenticated parse store now then
    (false, acts ++ [GuardAction.redirect "/login"])
  else if !AuthService.hasRole "ADMIN" parse store now fetchMe then
    (false, acts ++ [GuardAction.redirect "/access-denied"])
  else
    (true, acts ++ [GuardAction.showContent])

/-! ### Request/Error Normalizer: APIClient.makeRequest and verb helpers -/

/-- A fetch `Response`: status plus the parse outcome of its body
(`none` = body not valid JSON, e.g. the empty 204 body). -/
structure HttpResponse where
  status : Nat
  body : Option JVal
  deriving Repr

/-- `Response.ok`: status in the range 200–299. -/
def HttpResponse.ok (r : HttpResponse) : Bool :=
  decide (200 ≤ r.status) && decide (r.status ≤ 299)

/-- `await response.json()`: the parsed body, or a rejection on invalid JSON. -/
def HttpResponse.json (r : HttpResponse) : Except String JVal :=
  match r.body with
  | some v => .ok v
  | none => .error "Unexpected end of JSON input"

/-- `new Error(data.message || 'Request failed')`: the message string used by
`makeRequest` for a non-ok response. -/
def errMessageOf (data : JVal) : String :=
  match data.field "message" with
  | some v => if v.truthy then v.jsToString else "Request failed"
  | none => "Request failed"

/-- `APIClient.makeRequest` (api.js lines 18–48). `fetchResult` is the outcome
of the `fetch` call itself (`error` = transport-level rejection); the 503
`serverOffline` translation, the non-ok rejection and the catch clause that
rewrites messages containing `'fetch'` into the connectivity message are
translated directly. -/
def APIClient.makeRequest (fetchResult : Except String HttpResponse) :
    Except String HttpResponse :=
  let attempt : Except String HttpResponse :=
    match fetchResult with
    | .error m => .error m
    | .ok response =>
      let step503 : Except String Unit :=
        if response.status = 503 then
          match response.json with
          | .error m => .error m
          | .ok data =>
            if jsTruthyOpt (data.field "serverOffline") then
              .error "Server is currently offline. Please try again later."
            else .ok ()
        else .ok ()
      match step503 with
      | .error m => .error m
      | .ok _ =>
        if !response.ok then
          match response.json with
          | .error m => .error m
          | .ok data => .error (errMessageOf data)
        else .ok response
  match attempt with
  | .ok r => .ok r
  | .error m =>
    if jsIncludes m "fetch" then
      .error "Unable to connect to server. Please check your connection and try again."
    else .error m

/-- `APIClient.get`: `makeRequest` then `response.json()` unconditionally. -/
def APIClient.get (fetchResult : Except String HttpResponse) : Except String JVal :=
  match APIClient.makeRequest fetchResult with
  | .error m => .error m
  | .ok response => response.json

/-- `APIClient.post`: serializes `data` as the body, then behaves like `get`
on the response. -/
def APIClient.post (_data : JVal) (fetchResult : Except String HttpResponse) :
    Except String JVal :=
  match APIClient.makeRequest fetchResult with
  | .error m => .error m
  | .ok response => response.json

/-- `APIClient.put`: same response handling as `post`. -/
def APIClient.put (_data : JVal) (fetchResult : Except String HttpResponse) :
    Except String JVal :=
  match APIClient.makeRequest fetchResult with
  | .error m => .error m
  | .ok response => response.json

/-- `APIClient.delete`: returns `true` for a 204 response, otherwise parses
the body (api.js lines 93–102). -/
def APIClient.delete (fetchResult : Except String HttpResponse) : Except String JVal :=
  match APIClient.makeRequest fetchResult with
  | .error m => .error m
  | .ok response =>
    if response.status = 204 then .ok (.jBool true)
    else response.json

/-! ### UserManagementController.getErrorMessage (unnamed part, lines 17–49) -/

/-- JS `typeof v === 'object'` (true for objects and `null`). -/
def isObjectType : JVal → Bool
  | .jObj _ => true
  | .jNull => true
  | _ => false

/-- The inner fallback once `error.message` is a truthy object and the nested
`error.message.error.message` check failed: try `error.message.message`, else
`JSON.stringify(error.message)`. -/
def innerMessageFallback (m : JVal) : JVal :=
  match m.field "message" with
  | some mm => if mm.truthy then mm else .jStr m.stringify
  | none => .jStr m.stringify

/-- The branch for a truthy object-typed `error.message`: check
`error.message.error && error.message.error.message` first. -/
def innerMessageUnwrap (m : JVal) : JVal :=
  match m.field "error" with
  | some er =>
    if er.truthy then
      match er.field "message" with
      | some em => if em.truthy then em else innerMessageFallback m
      | none => innerMessageFallback m
    else innerMessageFallback m
  | none => innerMessageFallback m

/-- The tail of `getErrorMessage` when `error.message` is falsy or absent:
`error.error && error.error.message`, then the `toString()` fallback. -/
def topLevelErrorUnwrap (e : JVal) : JVal :=
  match e.field "error" with
  | some er =>
    if er.truthy then
      match er.field "message" with
      | some em => if em.truthy then em else .jStr e.jsToString
      | none => .jStr e.jsToString
    else .jStr e.jsToString
  | none => .jStr e.jsToString

/-- `UserManagementController.getErrorMessage(error)`: string passthrough,
then the `.message` branch (object-typed messages unwrapped via
`.error.message`, `.message`, else stringified), then top-level
`.error.message`, then `toString()`. Returns the raw selected value. -/
def UserManagementController.getErrorMessage (e : JVal) : JVal :=
  match e with
  | .jStr _ => e
  | _ =>
    match e.field "message" with
    | some m =>
      if m.truthy then
        if isObjectType m then innerMessageUnwrap m
        else m
      else topLevelErrorUnwrap e
    | none => topLevelErrorUnwrap e

/-! ### Proxy Gateway: ErrorHandler and routes (server/middleware, server/routes) -/

/-- A Node-side exception as `handleProxyError` inspects it. -/
structure JsError where
  code : Option String
  message : String
  deriving Repr, DecidableEq

/-- What the gateway sends back to the browser (`none` body = empty `send()`). -/
structure HttpReply where
  status : Nat
  body : Option JVal
  deriving Repr

def ErrorHandler.offlineMessage : String :=
  "Server is currently offline. Please try again later."

def ErrorHandler.genericMessage : String :=
  "Connection failed. Please try again later."

/-- The connection-failure test of `handleProxyError`:
`error.code === 'ECONNREFUSED' || error.code === 'ETIMEDOUT' ||
error.message.includes('fetch failed')`. -/
def ErrorHandler.isConnectionError (e : JsError) : Bool :=
  e.code == some "ECONNREFUSED" || e.code == some "ETIMEDOUT" ||
    jsIncludes e.message "fetch failed"

/-- `ErrorHandler.handleProxyError` (lines 34–50): 503 + `serverOffline:true`
for connection failures, a fixed generic 500 otherwise. -/
def ErrorHandler.handleProxyError (e : JsError) : HttpReply :=
  if ErrorHandler.isConnectionError e then
    { status := 503
      body := some (.jObj [("message", .jStr ErrorHandler.offlineMessage),
                           ("serverOffline", .jBool true)]) }
  else
    { status := 500
      body := some (.jObj [("message", .jStr ErrorHandler.genericMessage)]) }

/-- `ErrorHandler.handleProxyResponse`: empty 204 forwarding, JSON parse with
a 500 on parse failure, verbatim status+body for non-ok, explicit 201, and
`res.json(data)` (status 200) for every other success status. -/
def ErrorHandler.handleProxyResponse (response : HttpResponse) : HttpReply :=
  if response.status = 204 then { status := 204, body := none }
  else
    match response.json with
    | .error _ =>
      { status := 500, body := some (.jObj [("message", .jStr "Invalid response from server")]) }
    | .ok data =>
      if !response.ok then { status := response.status, body := some data }
      else if response.status = 201 then { status := 201, body := some data }
      else { status := 200, body := some data }

/-- A browser request as the two modelled routes consume it. -/
structure IncomingRequest where
  authorization : Option String
  body : JVal
  deriving Repr

/-- The request a route hands to `fetch` toward the backend. -/
structure ForwardedRequest where
  method : String
  url : String
  headers : List (String × String)
  body : Option String
  deriving Repr, DecidableEq

/-- The backend request built by the `POST /api/auth/login` route
(server/routes/auth.js lines 16–32): Content-Type only, JSON body. -/
def loginForward (backendUrl : String) (req : IncomingRequest) : ForwardedRequest :=
  { method := "POST"
    url := backendUrl ++ "/api/auth/login"
    headers := [("Content-Type", "application/json")]
    body := some req.body.stringify }

/-- The backend request built by the `GET /api/products` route
(server/routes/products.js lines 16–34): forwards
`req.headers.authorization || ''`. -/
def productsGetForward (backendUrl : String) (req : IncomingRequest) : ForwardedRequest :=
  { method := "GET"
    url := backendUrl ++ "/api/products"
    headers := [("Content-Type", "application/json"),
                ("Authorization", req.authorization.getD "")]
    body := none }

/-- The login route handler end to end: on a backend response delegate to
`handleProxyResponse`, on a thrown error to `handleProxyError`. -/
def loginRoute (backendResult : Except JsError HttpResponse) : HttpReply :=
  match backendResult with
  | .ok response => ErrorHandler.handleProxyResponse response
  | .error e => ErrorHandler.handleProxyError e

/-- The `GET /api/products` route handler end to end (same shape). -/
def productsGetRoute (backendResult : Except JsError HttpResponse) : HttpReply :=
  match backendResult with
  | .ok response => ErrorHandler.handleProxyResponse response
  | .error e => ErrorHandler.handleProxyError e

/-! ## Claims -/

/-- C8, counterexample: `setToken("")` does not persist `""` — `if (token)` is
false for the empty string, so `removeItem` runs and the immediate read of the
persisted token returns the absent value, not `""`. -/
theorem C8_counterexample :
    JWTHelper.getToken ((APIClient.new none).setToken (some "")).store = none ∧
    (none : Option String) ≠ some "" := by
  exact ⟨rfl, by simp⟩

/-- C8 (amended): for every nonempty token string `t`, `setToken(t)` followed
immediately by a read of the persisted token returns `t`, and `setToken(null)`
followed by a read returns the absent value. -/
theorem C8_setToken_roundtrip (c : APIClient) (t : String) (h : t ≠ "") :
    JWTHelper.getToken ((c.setToken (some t)).store) = some t ∧
    JWTHelper.getToken ((c.setToken none).store) = none := by
  refine ⟨?_, rfl⟩
  simp [APIClient.setToken, JWTHelper.getToken, strTruthy, h]

/-- C8 witness: the round trip evaluated at the concrete token `"abc"`. -/
theorem C8_setToken_roundtrip_witness :
    JWTHelper.getToken ((APIClient.new none).setToken (some "abc")).store = some "abc" ∧
    JWTHelper.getToken ((APIClient.new none).setToken none).store = none :=
  ⟨(C8_setToken_roundtrip (APIClient.new none) "abc" (by decide)).1,
   (C8_setToken_roundtrip (APIClient.new none) "abc" (by decide)).2⟩

/-- C2, counterexample: `makeRequest` attaches the cached `this.token`, not the
currently persisted value. After a direct write to the persisted store
(`JWTHelper.setToken`, bypassing `APIClient.setToken`), the very next send
still carries the stale cached token. -/
theorem C2_counterexample :
    (JWTHelper.setTokenStore (APIClient.new (some "a")) "b").authHeader = "Bearer a" ∧
    (JWTHelper.setTokenStore (APIClient.new (some "a")) "b").store = some "b" ∧
    (APIClient.new (JWTHelper.setTokenStore (APIClient.new (some "a")) "b").store).authHeader
      = "Bearer b" ∧
    ("Bearer a" : String) ≠ "Bearer b" := by
  exact ⟨rfl, rfl, rfl, by decide⟩

/-- C2 (amended): `setToken` keeps the cached token and the persisted store in
sync, so after `setToken(v)` or `setToken(null)` the very next send carries the
same Authorization header a freshly created client would; in particular
`setToken(null)` makes the next send carry no bearer value. -/
theorem C2_setToken_next_send (c : APIClient) (t : Option String) :
    (c.setToken t).authHeader = (APIClient.new ((c.setToken t).store)).authHeader ∧
    (c.setToken t).token = t ∧
    (c.setToken none).authHeader = "" ∧
    (∀ s : String, s ≠ "" → (c.setToken (some s)).authHeader = "Bearer " ++ s) := by
  refine ⟨?_, rfl, rfl, ?_⟩
  · cases t with
    | none => rfl
    | some s =>
      by_cases hs : s = ""
      · subst hs; rfl
      · simp [APIClient.setToken, APIClient.new, APIClient.authHeader, strTruthy, hs]
  · intro s hs
    simp [APIClient.setToken, APIClient.authHeader, strTruthy, hs]

/-- C2 witness: the amended statement evaluated at a concrete client and token. -/
theorem C2_setToken_next_send_witness :
    ((APIClient.new (some "old")).setToken (some "new")).authHeader = "Bearer new" ∧
    ((APIClient.new (some "old")).setToken none).authHeader = "" :=
  ⟨(C2_setToken_next_send (APIClient.new (some "old")) (some "new")).2.2.2 "new" (by decide),
   (C2_setToken_next_send (APIClient.new (some "old")) none).2.2.1⟩

/-- C4, counterexample: a bodyless 204 response makes `get` fail with a JSON
parse error instead of returning a no-content marker. -/
theorem C4_counterexample :
    APIClient.get (.ok ⟨204, none⟩) = .error "Unexpected end of JSON input" := rfl

/-- C4 (amended): only the `delete` operation returns the explicit no-content
marker (`true`) for a 204 response; `get`, `post` and `put` call
`response.json()` unconditionally, which on the empty 204 body is a parse
failure. -/
theorem C4_204_only_delete (b : Option JVal) (d : JVal) :
    APIClient.delete (.ok ⟨204, b⟩) = .ok (.jBool true) ∧
    APIClient.get (.ok ⟨204, b⟩) = HttpResponse.json ⟨204, b⟩ ∧
    APIClient.post d (.ok ⟨204, b⟩) = HttpResponse.json ⟨204, b⟩ ∧
    APIClient.put d (.ok ⟨204, b⟩) = HttpResponse.json ⟨204, b⟩ ∧
    HttpResponse.json ⟨204, (none : Option JVal)⟩ = .error "Unexpected end of JSON input" := by
  refine ⟨?_, ?_, ?_, ?_, rfl⟩ <;>
    simp [APIClient.delete, APIClient.get, APIClient.post, APIClient.put,
      APIClient.makeRequest, HttpResponse.ok, HttpResponse.json]

/-- C5: `handleProxyError` answers 503 with a `serverOffline:true` body exactly
when the error is a connection-level failure (code `ECONNREFUSED` or
`ETIMEDOUT`, or a message containing `fetch failed`), and answers every other
exception with a fixed generic 500 body that carries nothing from the error. -/
theorem C5_handleProxyError (e : JsError) :
    ((ErrorHandler.handleProxyError e).status = 503 ↔
      (e.code = some "ECONNREFUSED" ∨ e.code = some "ETIMEDOUT" ∨
       jsIncludes e.message "fetch failed" = true)) ∧
    ((ErrorHandler.handleProxyError e).status = 503 →
      ErrorHandler.handleProxyError e =
        ⟨503, some (.jObj [("message", .jStr ErrorHandler.offlineMessage),
                           ("serverOffline", .jBool true)])⟩) ∧
    ((ErrorHandler.handleProxyError e).status ≠ 503 →
      ErrorHandler.handleProxyError e =
        ⟨500, some (.jObj [("message", .jStr ErrorHandler.genericMessage)])⟩) := by
  by_cases hc : ErrorHandler.isConnectionError e = true
  · have he : ErrorHandler.handleProxyError e =
        ⟨503, some (.jObj [("message", .jStr ErrorHandler.offlineMessage),
                           ("serverOffline", .jBool true)])⟩ := by
      simp [ErrorHandler.handleProxyError, hc]
    have hdisj : e.code = some "ECONNREFUSED" ∨ e.code = some "ETIMEDOUT" ∨
        jsIncludes e.message "fetch failed" = true := by
      simp only [ErrorHandler.isConnectionError, Bool.or_eq_true, beq_iff_eq] at hc
      tauto
    refine ⟨?_, fun _ => he, fun hne => absurd (by rw [he]) hne⟩
    rw [he]
    exact ⟨fun _ => hdisj, fun _ => rfl⟩
  · have he : ErrorHandler.handleProxyError e =
        ⟨500, some (.jObj [("message", .jStr ErrorHandler.genericMessage)])⟩ := by
      simp [ErrorHandler.handleProxyError, hc]
    have hnd : ¬(e.code = some "ECONNREFUSED" ∨ e.code = some "ETIMEDOUT" ∨
        jsIncludes e.message "fetch failed" = true) := by
      intro hd
      apply hc
      simp only [ErrorHandler.isConnectionError, Bool.or_eq_true, beq_iff_eq]
      tauto
    refine ⟨?_, fun h503 => ?_, fun _ => he⟩
    · rw [he]
      exact ⟨fun h => absurd h (by decide), fun hd => absurd hd hnd⟩
    · rw [he] at h503
      exact absurd h503 (by decide)

/-- C5 witness: a refused connection yields the 503 offline reply; an
unrelated exception yields the fixed generic 500 reply. -/
theorem C5_handleProxyError_witness :
    ErrorHandler.handleProxyError ⟨some "ECONNREFUSED", "boom"⟩ =
      ⟨503, some (.jObj [("message", .jStr ErrorHandler.offlineMessage),
                         ("serverOffline", .jBool true)])⟩ ∧
    ErrorHandler.handleProxyError ⟨none, "boom"⟩ =
      ⟨500, some (.jObj [("message", .jStr ErrorHandler.genericMessage)])⟩ :=
  ⟨(C5_handleProxyError ⟨some "ECONNREFUSED", "boom"⟩).2.1 rfl,
   (C5_handleProxyError ⟨none, "boom"⟩).2.2 (by decide)⟩

/-- C6: every 503 response whose parsed body carries a truthy `serverOffline`
flag makes `makeRequest` fail with the user-facing offline message, not a raw
network error string. -/
theorem C6_offline_translation (r : HttpResponse) (d : JVal)
    (h1 : r.status = 503) (h2 : r.body = some d)
    (h3 : jsTruthyOpt (d.field "serverOffline") = true) :
    APIClient.makeRequest (.ok r) =
      .error "Server is currently offline. Please try again later." := by
  obtain ⟨s, b⟩ := r
  simp only at h1 h2
  subst h1; subst h2
  have hf : jsIncludes "Server is currently offline. Please try again later." "fetch" = false := by
    decide
  simp [APIClient.makeRequest, HttpResponse.json, h3, hf]

/-- C6 witness: the offline translation at a concrete 503 response. -/
theorem C6_offline_translation_witness :
    APIClient.makeRequest (.ok ⟨503, some (.jObj [("serverOffline", .jBool true)])⟩) =
      .error "Server is currently offline. Please try again later." :=
  C6_offline_translation ⟨503, some (.jObj [("serverOffline", .jBool true)])⟩
    (.jObj [("serverOffline", .jBool true)]) rfl rfl (by decide)

/-- C3, counterexample: for the empty string the shape `{message:""}` does not
come back unchanged — `if (error.message)` is false for `""`, so the function
falls through to the `toString()` fallback. -/
theorem C3_counterexample :
    UserManagementController.getErrorMessage (.jObj [("message", .jStr "")]) =
      .jStr "[object Object]" ∧
    JVal.jStr "[object Object]" ≠ .jStr "" := by
  exact ⟨rfl, by simp⟩

/-- C3 (amended): for every nonempty string `X`, the bodies
`{error:{message:X}}`, `{message:{message:X}}` and `{message:X}` all yield
exactly `X`; and the unwrapping order is string passthrough first, then
`.message` (an object-typed message checked for `.error.message`, then
`.message`, else JSON-stringified), then top-level `.error.message`, then the
`toString()` fallback. -/
theorem C3_getErrorMessage_unwrap (X A B : String) (hX : X ≠ "") (hA : A ≠ "") :
    (∀ s : String, UserManagementController.getErrorMessage (.jStr s) = .jStr s) ∧
    UserManagementController.getErrorMessage
      (.jObj [("error", .jObj [("message", .jStr X)])]) = .jStr X ∧
    UserManagementController.getErrorMessage
      (.jObj [("message", .jObj [("message", .jStr X)])]) = .jStr X ∧
    UserManagementController.getErrorMessage
      (.jObj [("message", .jStr X)]) = .jStr X ∧
    UserManagementController.getErrorMessage
      (.jObj [("message", .jStr A), ("error", .jObj [("message", .jStr B)])]) = .jStr A ∧
    UserManagementController.getErrorMessage
      (.jObj [("message", .jObj [("error", .jObj [("message", .jStr A)]),
                                 ("message", .jStr B)])]) = .jStr A ∧
    UserManagementController.getErrorMessage
      (.jObj [("message", .jObj [("foo", .jStr "y")])]) = .jStr "\x7b\x22foo\x22:\x22y\x22\x7d" ∧
    UserManagementController.getErrorMessage (.jObj []) = .jStr "[object Object]" := by
  refine ⟨fun s => rfl, ?_, ?_, ?_, ?_, ?_, ?_, rfl⟩ <;>
    simp [UserManagementController.getErrorMessage, innerMessageUnwrap,
      innerMessageFallback, topLevelErrorUnwrap, isObjectType, JVal.field,
      JVal.truthy, List.lookup, bne_iff_ne, hX, hA, JVal.stringify,
      stringifyFields, jsonEscape, jsonEscapeChar]

/-- C3 witness: the amended statement at the concrete strings X, A, B. -/
theorem C3_getErrorMessage_unwrap_witness :
    UserManagementController.getErrorMessage
      (.jObj [("error", .jObj [("message", .jStr "X")])]) = .jStr "X" ∧
    UserManagementController.getErrorMessage
      (.jObj [("message", .jObj [("message", .jStr "X")])]) = .jStr "X" ∧
    UserManagementController.getErrorMessage
      (.jObj [("message", .jStr "X")]) = .jStr "X" ∧
    UserManagementController.getErrorMessage
      (.jObj [("message", .jStr "A"), ("error", .jObj [("message", .jStr "B")])]) = .jStr "A" :=
  ⟨(C3_getErrorMessage_unwrap "X" "A" "B" (by decide) (by decide)).2.1,
   (C3_getErrorMessage_unwrap "X" "A" "B" (by decide) (by decide)).2.2.1,
   (C3_getErrorMessage_unwrap "X" "A" "B" (by decide) (by decide)).2.2.2.1,
   (C3_getErrorMessage_unwrap "X" "A" "B" (by decide) (by decide)).2.2.2.2.1⟩

/-- C10: role gating is case-insensitive (it depends only on the lowercased
role strings), and the target role `admin` — in any letter case — is satisfied
by a user role of either `admin` or `administrator` in any letter case, both
in `hasRole`'s comparison and in `isAdmin`; `hasRole` applies exactly this
comparison to the freshly resolved identity. -/
theorem C10_admin_role_gating (r t r' t' : String) (uname : Option String)
    (parse : JwtParse) (store : Option String) (now : Nat) :
    (toLowerCase r = toLowerCase r' → toLowerCase t = toLowerCase t' →
      AuthService.roleMatches r t = AuthService.roleMatches r' t') ∧
    (toLowerCase t = "admin" →
      (AuthService.roleMatches r t = true ↔
        toLowerCase r = "admin" ∨ toLowerCase r = "administrator")) ∧
    (r ≠ "" →
      (AuthService.isAdmin (some ⟨uname, some r⟩) = true ↔
        toLowerCase r = "admin" ∨ toLowerCase r = "administrator")) ∧
    AuthService.hasRole t parse store now (.ok (some ⟨uname, some r⟩)) =
      (AuthService.isAuthenticated parse store now && (r != "") &&
        AuthService.roleMatches r t) := by
  refine ⟨?_, ?_, ?_, ?_⟩
  · intro hr ht
    simp [AuthService.roleMatches, hr, ht]
  · intro ht
    simp [AuthService.roleMatches, ht, beq_iff_eq]
  · intro hr
    simp [AuthService.isAdmin, strTruthy, bne_iff_ne, hr, beq_iff_eq]
  · cases ha : AuthService.isAuthenticated parse store now <;>
      by_cases hr : r = "" <;>
        simp [AuthService.hasRole, AuthService.getCurrentUser, ha, strTruthy,
          bne_iff_ne, hr]

/-- C10 witness: two distinct role strings satisfy the elevated check, across
letter cases, and the identity-based variant agrees. -/
theorem C10_admin_role_gating_witness :
    AuthService.roleMatches "ADMINISTRATOR" "Admin" = true ∧
    AuthService.roleMatches "Admin" "ADMIN" = true ∧
    AuthService.roleMatches "ADMINISTRATOR" "Admin" =
      AuthService.roleMatches "administrator" "admin" ∧
    AuthService.isAdmin (some ⟨some "u", some "Administrator"⟩) = true :=
  ⟨(C10_admin_role_gating "ADMINISTRATOR" "Admin" "x" "y" none (fun _ => none) none 0).2.1
      (by decide) |>.mpr (Or.inr (by decide)),
   (C10_admin_role_gating "Admin" "ADMIN" "x" "y" none (fun _ => none) none 0).2.1
      (by decide) |>.mpr (Or.inl (by decide)),
   (C10_admin_role_gating "ADMINISTRATOR" "Admin" "administrator" "admin" none
      (fun _ => none) none 0).1 (by decide) (by decide),
   (C10_admin_role_gating "Administrator" "x" "y" "z" (some "u") (fun _ => none) none 0).2.2.1
      (by decide) |>.mpr (Or.inr (by decide))⟩

/-- C9: at any real current time (epoch second at least 1), `isTokenExpired`
returns true exactly when the supplied-or-stored token is absent, unparsable,
or lacks an `exp` claim, or its `exp` is strictly below the current second;
and a token whose `exp` equals the current second is still valid. -/
theorem C9_isTokenExpired (parse : JwtParse) (tokenArg store : Option String)
    (now : Nat) (hnow : 1 ≤ now) :
    (JWTHelper.isTokenExpired parse tokenArg store now = true ↔
      strTruthy (JWTHelper.effectiveToken tokenArg store) = false ∨
      parse ((JWTHelper.effectiveToken tokenArg store).getD "") = none ∨
      (∃ p, parse ((JWTHelper.effectiveToken tokenArg store).getD "") = some p ∧
        p.exp = none) ∨
      (∃ p e, parse ((JWTHelper.effectiveToken tokenArg store).getD "") = some p ∧
        p.exp = some e ∧ e < now)) ∧
    (∀ p : JwtPayload,
      strTruthy (JWTHelper.effectiveToken tokenArg store) = true →
      parse ((JWTHelper.effectiveToken tokenArg store).getD "") = some p →
      p.exp = some now →
      JWTHelper.isTokenExpired parse tokenArg store now = false) := by
  constructor
  · cases htk : strTruthy (JWTHelper.effectiveToken tokenArg store) with
    | false =>
      simp [JWTHelper.isTokenExpired, htk]
    | true =>
      cases hp : parse ((JWTHelper.effectiveToken tokenArg store).getD "") with
      | none =>
        simp [JWTHelper.isTokenExpired, htk, hp]
      | some p =>
        cases he : p.exp with
        | none =>
          simp [JWTHelper.isTokenExpired, htk, hp, natTruthy, he]
        | some e =>
          rcases Nat.eq_zero_or_pos e with he0 | he0
          · subst he0
            have hval : JWTHelper.isTokenExpired parse tokenArg store now = true := by
              simp [JWTHelper.isTokenExpired, htk, hp, natTruthy, he]
            exact ⟨fun _ => Or.inr (Or.inr (Or.inr ⟨p, 0, rfl, he, hnow⟩)),
              fun _ => hval⟩
          · have hne : (e != 0) = true := by
              simp only [bne_iff_ne, ne_eq]
              omega
            simp only [JWTHelper.isTokenExpired, JWTHelper.getToken, htk, hp,
              natTruthy, he, hne, Bool.not_true, Bool.false_eq_true, if_false,
              decide_eq_true_eq]
            constructor
            · intro hlt
              exact Or.inr (Or.inr (Or.inr ⟨p, e, rfl, he, hlt⟩))
            · rintro (h | h | ⟨q, hq, hqe⟩ | ⟨q, e', hq, hqe, hlt⟩)
              · exact Bool.noConfusion h
              · exact Option.noConfusion h
              · obtain rfl : p = q := Option.some.inj hq
                rw [he] at hqe
                exact Option.noConfusion hqe
              · obtain rfl : p = q := Option.some.inj hq
                rw [he] at hqe
                obtain rfl : e = e' := Option.some.inj hqe
                simpa using hlt
  · intro p htk hp he
    simp only [JWTHelper.isTokenExpired, htk, hp, natTruthy, he]
    have hnz : (now != 0) = true := by
      simp [bne_iff_ne]
      omega
    simp [hnz]

/-- C9 witness: a token with `exp` below `now` is expired; a token with `exp`
equal to `now` is still valid. -/
theorem C9_isTokenExpired_witness :
    JWTHelper.isTokenExpired (fun _ => some ⟨some 50⟩) (some "t") none 100 = true ∧
    JWTHelper.isTokenExpired (fun _ => some ⟨some 100⟩) (some "t") none 100 = false :=
  ⟨(C9_isTokenExpired (fun _ => some ⟨some 50⟩) (some "t") none 100 (by decide)).1.mpr
      (Or.inr (Or.inr (Or.inr ⟨⟨some 50⟩, 50, rfl, rfl, by decide⟩))),
   (C9_isTokenExpired (fun _ => some ⟨some 100⟩) (some "t") none 100 (by decide)).2
      ⟨some 100⟩ (by decide) rfl rfl⟩

/-- C1: `AdminGuard.init` hides gated content first on every run; on every
denial path (token absent or expired, role check failed, or an error during
identity resolution) it returns a denied result and redirects without ever
showing content; content is shown exactly when the awaited role check
succeeded, and an identity-resolution error always denies. -/
theorem C1_admin_guard_fail_closed (parse : JwtParse) (store : Option String)
    (now : Nat) (fetchMe : Except String (Option UserData)) :
    (AdminGuard.init parse store now fetchMe).2.head? = some GuardAction.hideContent ∧
    ((AdminGuard.init parse store now fetchMe).1 = false →
      GuardAction.showContent ∉ (AdminGuard.init parse store now fetchMe).2 ∧
      ((AdminGuard.init parse store now fetchMe).2 =
          [GuardAction.hideContent, GuardAction.redirect "/login"] ∨
       (AdminGuard.init parse store now fetchMe).2 =
          [GuardAction.hideContent, GuardAction.redirect "/access-denied"])) ∧
    ((AdminGuard.init parse store now fetchMe).1 = true ↔
      (AuthService.isAuthenticated parse store now = true ∧
       AuthService.hasRole "ADMIN" parse store now fetchMe = true)) ∧
    ((AdminGuard.init parse store now fetchMe).1 = true →
      (AdminGuard.init parse store now fetchMe).2 =
        [GuardAction.hideContent, GuardAction.showContent]) ∧
    (∀ m : String, fetchMe = .error m →
      (AdminGuard.init parse store now fetchMe).1 = false) := by
  cases h1 : AuthService.isAuthenticated parse store now with
  | false =>
    refine ⟨by simp [AdminGuard.init, h1], ?_, ?_, ?_, ?_⟩
    · intro _
      constructor
      · simp [AdminGuard.init, h1]
      · exact Or.inl (by simp [AdminGuard.init, h1])
    · simp [AdminGuard.init, h1]
    · intro h
      simp [AdminGuard.init, h1] at h
    · intro m _
      simp [AdminGuard.init, h1]
  | true =>
    cases h2 : AuthService.hasRole "ADMIN" parse store now fetchMe with
    | false =>
      refine ⟨by simp [AdminGuard.init, h1, h2], ?_, ?_, ?_, ?_⟩
      · intro _
        constructor
        · simp [AdminGuard.init, h1, h2]
        · exact Or.inr (by simp [AdminGuard.init, h1, h2])
      · simp [AdminGuard.init, h1, h2]
      · intro h
        simp [AdminGuard.init, h1, h2] at h
      · intro m _
        simp [AdminGuard.init, h1, h2]
    | true =>
      refine ⟨by simp [AdminGuard.init, h1, h2], ?_, ?_, ?_, ?_⟩
      · intro h
        simp [AdminGuard.init, h1, h2] at h
      · simp [AdminGuard.init, h1, h2]
      · intro _
        simp [AdminGuard.init, h1, h2]
      · intro m hm
        subst hm
        simp [AuthService.hasRole, AuthService.getCurrentUser, h1] at h2

/-- C1 witness: a full success reveals content after the role check; an
identity-resolution error denies. -/
theorem C1_admin_guard_fail_closed_witness :
    (AdminGuard.init (fun _ => some ⟨some 10⟩) (some "tok") 5
        (.ok (some ⟨some "u", some "admin"⟩))).2 =
      [GuardAction.hideContent, GuardAction.showContent] ∧
    (AdminGuard.init (fun _ => some ⟨some 10⟩) (some "tok") 5
        (.error "network down")).1 = false :=
  ⟨(C1_admin_guard_fail_closed (fun _ => some ⟨some 10⟩) (some "tok") 5
      (.ok (some ⟨some "u", some "admin"⟩))).2.2.2.1 rfl,
   (C1_admin_guard_fail_closed (fun _ => some ⟨some 10⟩) (some "tok") 5
      (.error "network down")).2.2.2.2 "network down" rfl⟩

/-- C7, counterexample: the login route forwards no Authorization header even
when the incoming request carries one. -/
theorem C7_counterexample :
    (loginForward "http://localhost:8080"
        ⟨some "Bearer t", .jObj []⟩).headers.lookup "Authorization" = none ∧
    (⟨some "Bearer t", .jObj []⟩ : IncomingRequest).authorization = some "Bearer t" :=
  ⟨rfl, rfl⟩

/-- C7 (amended): the gateway forwards method, path and JSON body; the
products route (like every non-auth route) forwards the incoming Authorization
header (empty when absent) while login forwards none; the backend's parsed
body is relayed verbatim, and its status verbatim for 200, 201, 204 and every
non-2xx status, any other 2xx being relayed as 200. -/
theorem C7_gateway_forwarding (backendUrl : String) (req : IncomingRequest)
    (d : JVal) (b : Option JVal) (resp : HttpResponse) (s : Nat) :
    (loginForward backendUrl req).method = "POST" ∧
    (loginForward backendUrl req).url = backendUrl ++ "/api/auth/login" ∧
    (loginForward backendUrl req).body = some req.body.stringify ∧
    (loginForward backendUrl req).headers.lookup "Authorization" = none ∧
    (productsGetForward backendUrl req).method = "GET" ∧
    (productsGetForward backendUrl req).url = backendUrl ++ "/api/products" ∧
    (productsGetForward backendUrl req).headers.lookup "Authorization" =
      some (req.authorization.getD "") ∧
    loginRoute (.ok resp) = ErrorHandler.handleProxyResponse resp ∧
    productsGetRoute (.ok resp) = ErrorHandler.handleProxyResponse resp ∧
    ErrorHandler.handleProxyResponse ⟨200, some d⟩ = ⟨200, some d⟩ ∧
    ErrorHandler.handleProxyResponse ⟨201, some d⟩ = ⟨201, some d⟩ ∧
    ErrorHandler.handleProxyResponse ⟨204, b⟩ = ⟨204, none⟩ ∧
    (¬(200 ≤ s ∧ s ≤ 299) →
      ErrorHandler.handleProxyResponse ⟨s, some d⟩ = ⟨s, some d⟩) ∧
    ErrorHandler.handleProxyResponse ⟨202, some d⟩ = ⟨200, some d⟩ := by
  refine ⟨rfl, rfl, rfl, rfl, rfl, rfl, rfl, rfl, rfl, ?_, ?_, ?_, ?_, ?_⟩
  · simp [ErrorHandler.handleProxyResponse, HttpResponse.json, HttpResponse.ok]
  · simp [ErrorHandler.handleProxyResponse, HttpResponse.json, HttpResponse.ok]
  · simp [ErrorHandler.handleProxyResponse]
  · intro hs
    have h204 : s ≠ 204 := by omega
    have hok : HttpResponse.ok ⟨s, some d⟩ = false := by
      simp only [HttpResponse.ok, Bool.and_eq_false_iff, decide_eq_false_iff_not]
      omega
    simp [ErrorHandler.handleProxyResponse, HttpResponse.json, h204, hok]
  · simp [ErrorHandler.handleProxyResponse, HttpResponse.json, HttpResponse.ok]

/-- C7 witness: a 404 from the backend is relayed verbatim. -/
theorem C7_gateway_forwarding_witness :
    ErrorHandler.handleProxyResponse ⟨404, some (.jObj [])⟩ = ⟨404, some (.jObj [])⟩ :=
  (C7_gateway_forwarding "http://localhost:8080" ⟨none, .jObj []⟩ (.jObj []) none
      ⟨200, none⟩ 404).2.2.2.2.2.2.2.2.2.2.2.2.1 (by omega)

end SalesStore
